import Mathlib

/-!
Shallow embedding of `src/orion_dtc/conscious_twin.py` (ORION Digital Twin
Consciousness).  Python floats are modelled by `ℚ`; Python dicts by
association lists `List (String × ℚ)` in insertion order; `round(x, n)`
(banker's rounding) by `roundTo`; `variance ** 0.5` by `Rat.sqrt` (no claim
depends on the value of the square root beyond its nonnegativity, on which
`Rat.sqrt` and the floating-point square root agree, and both are exact at 0);
`hashlib.sha256(json.dumps(record, sort_keys=True)).hexdigest()` is modelled
parametrically: every definition takes an arbitrary function
`hash : ProofRecord → String`, where `ProofRecord` is the five-field record
serialized at lines 84-90; SHA-256 composed with the canonical serialization
is one such function, and every claim about the hash chain holds for all of
them.
-/

/-- Python's `round-half-to-even` on a rational, to an integer. -/
def roundHalfEven (x : ℚ) : ℤ :=
  if x - ⌊x⌋ < 1/2 then ⌊x⌋
  else if 1/2 < x - ⌊x⌋ then ⌊x⌋ + 1
  else if ⌊x⌋ % 2 = 0 then ⌊x⌋ else ⌊x⌋ + 1

/-- Python's `round(x, n)`: round half to even at `n` decimal places. -/
def roundTo (n : ℕ) (x : ℚ) : ℚ :=
  (roundHalfEven (x * 10 ^ n) : ℚ) / 10 ^ n

/-- `PhysicalState` dataclass (lines 19-26): snapshot of the physical system. -/
structure PhysicalState where
  device_id : String := ""
  sensors : List (String × ℚ) := []
  actuators : List (String × ℚ) := []
  health : ℚ := 1
  timestamp : String := ""
deriving Repr, DecidableEq

/-- `TwinState` dataclass (lines 29-38): result of one assessment. -/
structure TwinState where
  twin_id : String := ""
  sync_accuracy : ℚ := 1
  prediction_accuracy : ℚ := 0
  anomalies_detected : ℕ := 0
  consciousness_level : String := "C-0 Reactive"
  consciousness_score : ℚ := 0
  proof_hash : String := ""
deriving Repr, DecidableEq

/-- An entry of `self.predictions`: the dict `{"sensors": {...}}` built by
`_make_prediction` (lines 162-171). -/
structure Prediction where
  sensors : List (String × ℚ) := []
deriving Repr, DecidableEq

/-- The five-field record serialized (with sorted keys) and hashed at
lines 84-91.  `score` is the composite score already rounded to 6 decimals. -/
structure ProofRecord where
  twin_id : String
  timestamp : String
  score : ℚ
  level : String
  anomalies : ℕ
deriving Repr, DecidableEq

/-- The engine state of `ConsciousDigitalTwin` (lines 44-50). -/
structure ConsciousDigitalTwin where
  twin_id : String
  device_id : String
  physical_history : List PhysicalState
  twin_history : List TwinState
  proof_chain : List String
  predictions : List Prediction
deriving Repr, DecidableEq

namespace ConsciousDigitalTwin

/-- `__init__` (lines 44-50): all four histories start empty. -/
def init (twin_id device_id : String) : ConsciousDigitalTwin :=
  ⟨twin_id, device_id, [], [], [], []⟩

/-- `_compute_sync_accuracy` (lines 110-119), called after the current
snapshot was appended to `physical_history` but reading only
`self.predictions`, which does not yet contain the current call's
prediction. -/
def computeSyncAccuracy (self : ConsciousDigitalTwin) (physical : PhysicalState) : ℚ :=
  match self.predictions.getLast? with
  | none => 1/2
  | some last_pred =>
    let errors := last_pred.sensors.filterMap fun kv =>
      match List.lookup kv.1 physical.sensors with
      | some actual => some (1 - min 1 |kv.2 - actual|)
      | none => none
    errors.sum / (max errors.length 1 : ℚ)

/-- `_evaluate_predictions` (lines 121-124): `physical_history` already
contains the current snapshot when this runs. -/
def evaluatePredictions (self : ConsciousDigitalTwin) (_physical : PhysicalState) : ℚ :=
  if self.physical_history.length < 3 then 3/10
  else min 1 ((self.physical_history.length : ℚ) / 20)

/-- `_detect_anomalies` (lines 126-136): `physical_history[-2]` is the
snapshot immediately preceding the current (already appended) one. -/
def detectAnomalies (self : ConsciousDigitalTwin) (physical : PhysicalState) : ℕ :=
  if self.physical_history.length < 2 then 0
  else
    match self.physical_history.dropLast.getLast? with
    | none => 0
    | some prev =>
      physical.sensors.countP fun kv =>
        match List.lookup kv.1 prev.sensors with
        | some pv => decide (1/2 < |kv.2 - pv|)
        | none => false

/-- `_sensor_integration` (lines 138-149). -/
def sensorIntegration (physical : PhysicalState) : ℚ :=
  if physical.sensors.isEmpty then 0
  else
    let values := physical.sensors.map (·.2)
    if values.length < 2 then 3/10
    else
      let mean := values.sum / (values.length : ℚ)
      if mean = 0 then 0
      else
        let variance := (values.map fun v => (v - mean) ^ 2).sum / (values.length : ℚ)
        let cv := Rat.sqrt variance / |mean|
        max 0 (min 1 (1 - cv))

/-- `_attention_focus` (lines 151-152). -/
def attentionFocus (physical : PhysicalState) : ℚ :=
  min 1 physical.health

/-- `_behavioral_consistency` (lines 154-160): variance of the last up to 5
recorded (rounded) consciousness scores. -/
def behavioralConsistency (self : ConsciousDigitalTwin) : ℚ :=
  if self.twin_history.length < 3 then 1/2
  else
    let scores := self.twin_history.map (·.consciousness_score)
    let recent := scores.drop (scores.length - 5)
    let mean := recent.sum / (recent.length : ℚ)
    let variance := (recent.map fun s => (s - mean) ^ 2).sum / (recent.length : ℚ)
    max 0 (1 - variance * 10)

/-- `_make_prediction` (lines 162-171): `physical_history` already contains
the current snapshot, so `physical_history[-2]` is the previous one. -/
def makePrediction (self : ConsciousDigitalTwin) (physical : PhysicalState) : ConsciousDigitalTwin :=
  let pred_sensors := physical.sensors.map fun kv =>
    if 2 ≤ self.physical_history.length then
      match self.physical_history.dropLast.getLast? with
      | some prevSnap =>
        let prev := (List.lookup kv.1 prevSnap.sensors).getD kv.2
        let trend := kv.2 - prev
        (kv.1, kv.2 + trend * (1/2))
      | none => (kv.1, kv.2)
    else (kv.1, kv.2)
  { self with predictions := self.predictions ++ [⟨pred_sensors⟩] }

end ConsciousDigitalTwin

/-- The classification ladder of lines 77-81, applied to the unrounded
composite score. -/
def classify (score : ℚ) : String :=
  if 85/100 ≤ score then "C-4 Transcendent"
  else if 70/100 ≤ score then "C-3 Autonomous"
  else if 50/100 ≤ score then "C-2 Emerging"
  else if 20/100 ≤ score then "C-1 Functional"
  else "C-0 Reactive"

namespace ConsciousDigitalTwin

/-- The six indicator values of lines 66-73, computed on the state `self`
as it is at line 66: the current snapshot already appended to
`physical_history`, nothing else appended yet. -/
def indicators (self : ConsciousDigitalTwin) (physical : PhysicalState) : List ℚ :=
  [ self.computeSyncAccuracy physical,
    min 1 ((self.twin_history.length : ℚ) / 10),
    sensorIntegration physical,
    self.evaluatePredictions physical,
    attentionFocus physical,
    self.behavioralConsistency ]

/-- The unrounded composite score of line 75, as a function of the state
before the call and the snapshot. -/
def compositeScore (self : ConsciousDigitalTwin) (physical : PhysicalState) : ℚ :=
  let s1 := { self with physical_history := self.physical_history ++ [physical] }
  (s1.indicators physical).sum / ((s1.indicators physical).length : ℚ)

/-- The five-field record handed to the hash at lines 84-90, as a function
of the state before the call and the snapshot. -/
def proofRecord (self : ConsciousDigitalTwin) (physical : PhysicalState) : ProofRecord :=
  let score := self.compositeScore physical
  ⟨self.twin_id, physical.timestamp, roundTo 6 score, classify score,
    ({ self with physical_history := self.physical_history ++ [physical] }).detectAnomalies physical⟩

/-- `sync` (lines 52-108).  `hash` models SHA-256 of the canonical
serialization of the proof record.  Returns the updated engine together
with the returned `TwinState`. -/
def sync (hash : ProofRecord → String) (self : ConsciousDigitalTwin)
    (physical : PhysicalState) : ConsciousDigitalTwin × TwinState :=
  let s1 := { self with physical_history := self.physical_history ++ [physical] }
  let sync_accuracy := s1.computeSyncAccuracy physical
  let prediction_accuracy := s1.evaluatePredictions physical
  let anomalies := s1.detectAnomalies physical
  let inds := s1.indicators physical
  let score := inds.sum / (inds.length : ℚ)
  let level := classify score
  let proof_hash := hash ⟨s1.twin_id, physical.timestamp, roundTo 6 score, level, anomalies⟩
  let s2 := { s1 with proof_chain := s1.proof_chain ++ [proof_hash] }
  let s3 := s2.makePrediction physical
  let twin_state : TwinState :=
    ⟨s3.twin_id, roundTo 4 sync_accuracy, roundTo 4 prediction_accuracy,
      anomalies, level, roundTo 4 score, proof_hash⟩
  let s4 := { s3 with twin_history := s3.twin_history ++ [twin_state] }
  (s4, twin_state)

/-- Feeding a sequence of snapshots to the engine, one `sync` call each,
keeping the final engine state. -/
def syncRun (hash : ProofRecord → String) (self : ConsciousDigitalTwin) :
    List PhysicalState → ConsciousDigitalTwin
  | [] => self
  | p :: ps => syncRun hash (self.sync hash p).1 ps

end ConsciousDigitalTwin

/-! ### Basic facts about the rounding and square-root models -/

lemma ratSqrt_zero : Rat.sqrt 0 = 0 := by
  have h := Rat.sqrt_eq (0 : ℚ)
  rw [mul_zero] at h
  rwa [abs_zero] at h

lemma roundHalfEven_intCast (k : ℤ) : roundHalfEven (k : ℚ) = k := by
  unfold roundHalfEven
  simp [Int.floor_intCast]

lemma roundHalfEven_nonneg (x : ℚ) (hx : 0 ≤ x) : 0 ≤ roundHalfEven x := by
  have hf : (0 : ℤ) ≤ ⌊x⌋ := Int.le_floor.mpr (by exact_mod_cast hx)
  unfold roundHalfEven
  split_ifs <;> omega

lemma roundHalfEven_le_int (x : ℚ) (N : ℤ) (h : x ≤ (N : ℚ)) : roundHalfEven x ≤ N := by
  have hf : ⌊x⌋ ≤ N := by
    have h2 := Int.floor_mono h
    rwa [Int.floor_intCast] at h2
  have hup : ¬ x - ⌊x⌋ < 1/2 → ⌊x⌋ + 1 ≤ N := by
    intro hr
    push_neg at hr
    have hxf : (⌊x⌋ : ℚ) + 1/2 ≤ x := by linarith
    have hlt : (⌊x⌋ : ℚ) < N := by linarith
    have : ⌊x⌋ < N := by exact_mod_cast hlt
    omega
  unfold roundHalfEven
  split_ifs with h1 h2 h3
  · exact hf
  · exact hup h1
  · exact hf
  · exact hup h1

lemma roundTo_nonneg (n : ℕ) (x : ℚ) (hx : 0 ≤ x) : 0 ≤ roundTo n x := by
  unfold roundTo
  have h1 : (0 : ℤ) ≤ roundHalfEven (x * 10 ^ n) :=
    roundHalfEven_nonneg _ (mul_nonneg hx (by positivity))
  have h2 : (0 : ℚ) ≤ (roundHalfEven (x * 10 ^ n) : ℚ) := by exact_mod_cast h1
  positivity

lemma roundTo_le_one (n : ℕ) (x : ℚ) (hx : x ≤ 1) : roundTo n x ≤ 1 := by
  unfold roundTo
  have h1 : roundHalfEven (x * 10 ^ n) ≤ (10 : ℤ) ^ n := by
    apply roundHalfEven_le_int
    push_cast
    nlinarith [pow_pos (show (0:ℚ) < 10 by norm_num) n]
  have h2 : (roundHalfEven (x * 10 ^ n) : ℚ) ≤ (10 : ℚ) ^ n := by exact_mod_cast h1
  rw [div_le_one (by positivity)]
  exact h2

lemma roundTo_eq_self (n : ℕ) (x : ℚ) (k : ℤ) (h : x * 10 ^ n = (k : ℚ)) :
    roundTo n x = x := by
  unfold roundTo
  rw [h, roundHalfEven_intCast]
  rw [div_eq_iff (by positivity : (10 : ℚ) ^ n ≠ 0)]
  linarith

/-! ### Bounds of list means -/

lemma list_sum_le_length (l : List ℚ) (h : ∀ x ∈ l, x ≤ 1) : l.sum ≤ (l.length : ℚ) := by
  have := List.sum_le_card_nsmul l 1 h
  simpa using this

lemma mean_max_bounds (l : List ℚ) (h : ∀ x ∈ l, 0 ≤ x ∧ x ≤ 1) :
    0 ≤ l.sum / (max l.length 1 : ℚ) ∧ l.sum / (max l.length 1 : ℚ) ≤ 1 := by
  have hdpos : (0 : ℚ) < max (l.length : ℚ) 1 := lt_max_iff.mpr (Or.inr one_pos)
  have h0 : 0 ≤ l.sum := List.sum_nonneg fun x hx => (h x hx).1
  have h1 : l.sum ≤ max (l.length : ℚ) 1 :=
    (list_sum_le_length l fun x hx => (h x hx).2).trans (le_max_left _ _)
  exact ⟨div_nonneg h0 hdpos.le, (div_le_one hdpos).mpr h1⟩

lemma mean_bounds (l : List ℚ) (hne : l ≠ []) (h : ∀ x ∈ l, 0 ≤ x ∧ x ≤ 1) :
    0 ≤ l.sum / (l.length : ℚ) ∧ l.sum / (l.length : ℚ) ≤ 1 := by
  have hlen : 0 < l.length := List.length_pos.mpr hne
  have hdpos : (0 : ℚ) < (l.length : ℚ) := by exact_mod_cast hlen
  have h0 : 0 ≤ l.sum := List.sum_nonneg fun x hx => (h x hx).1
  exact ⟨div_nonneg h0 hdpos.le,
    (div_le_one hdpos).mpr (list_sum_le_length l fun x hx => (h x hx).2)⟩

lemma min_one_mem_unit (q : ℚ) (hq : 0 ≤ q) : 0 ≤ min 1 q ∧ min 1 q ≤ 1 :=
  ⟨le_min (by norm_num) hq, min_le_left 1 q⟩

/-! ### Range of each of the six indicators -/

namespace ConsciousDigitalTwin

lemma computeSyncAccuracy_mem_unit (self : ConsciousDigitalTwin) (p : PhysicalState) :
    0 ≤ self.computeSyncAccuracy p ∧ self.computeSyncAccuracy p ≤ 1 := by
  unfold computeSyncAccuracy
  cases self.predictions.getLast? with
  | none => norm_num
  | some last_pred =>
    apply mean_max_bounds
    intro x hx
    rcases List.mem_filterMap.mp hx with ⟨kv, _, hkv⟩
    rcases hlook : List.lookup kv.1 p.sensors with _ | actual
    · rw [hlook] at hkv
      simp at hkv
    · rw [hlook] at hkv
      simp only [Option.some.injEq] at hkv
      have hm0 : 0 ≤ min 1 |kv.2 - actual| := le_min (by norm_num) (abs_nonneg _)
      have hm1 : min 1 |kv.2 - actual| ≤ 1 := min_le_left _ _
      constructor <;> [linarith [hkv]; linarith [hkv]]

lemma sensorIntegration_mem_unit (p : PhysicalState) :
    0 ≤ sensorIntegration p ∧ sensorIntegration p ≤ 1 := by
  simp only [sensorIntegration]
  split_ifs
  · norm_num
  · norm_num
  · norm_num
  · exact ⟨le_max_left _ _, max_le (by norm_num) (min_le_left _ _)⟩

lemma evaluatePredictions_mem_unit (self : ConsciousDigitalTwin) (p : PhysicalState) :
    0 ≤ self.evaluatePredictions p ∧ self.evaluatePredictions p ≤ 1 := by
  unfold evaluatePredictions
  split_ifs
  · norm_num
  · exact min_one_mem_unit _ (by positivity)

lemma attentionFocus_mem_unit (p : PhysicalState) (hp : 0 ≤ p.health) :
    0 ≤ attentionFocus p ∧ attentionFocus p ≤ 1 :=
  min_one_mem_unit _ hp

lemma sq_dev_mean_nonneg (l : List ℚ) (m : ℚ) :
    0 ≤ (l.map fun s => (s - m) ^ 2).sum / (l.length : ℚ) := by
  apply div_nonneg
  · exact List.sum_nonneg fun x hx => by
      rcases List.mem_map.mp hx with ⟨s, _, rfl⟩
      positivity
  · positivity

lemma behavioralConsistency_mem_unit (self : ConsciousDigitalTwin) :
    0 ≤ self.behavioralConsistency ∧ self.behavioralConsistency ≤ 1 := by
  simp only [behavioralConsistency]
  split_ifs
  · norm_num
  · refine ⟨le_max_left _ _, max_le (by norm_num) ?_⟩
    have hvar := sq_dev_mean_nonneg
      ((self.twin_history.map fun t => t.consciousness_score).drop
        ((self.twin_history.map fun t => t.consciousness_score).length - 5))
      (((self.twin_history.map fun t => t.consciousness_score).drop
        ((self.twin_history.map fun t => t.consciousness_score).length - 5)).sum /
        ((((self.twin_history.map fun t => t.consciousness_score).drop
          ((self.twin_history.map fun t => t.consciousness_score).length - 5)).length : ℕ) : ℚ))
    linarith

lemma self_monitoring_mem_unit (self : ConsciousDigitalTwin) :
    0 ≤ min 1 ((self.twin_history.length : ℚ) / 10) ∧
      min 1 ((self.twin_history.length : ℚ) / 10) ≤ 1 :=
  min_one_mem_unit _ (by positivity)

lemma compositeScore_mem_unit (self : ConsciousDigitalTwin) (p : PhysicalState)
    (hp : 0 ≤ p.health) : 0 ≤ self.compositeScore p ∧ self.compositeScore p ≤ 1 := by
  unfold compositeScore
  apply mean_bounds
  · simp [indicators]
  · intro x hx
    simp only [indicators, List.mem_cons, List.not_mem_nil, or_false] at hx
    rcases hx with rfl | rfl | rfl | rfl | rfl | rfl
    · exact computeSyncAccuracy_mem_unit _ _
    · exact self_monitoring_mem_unit _
    · exact sensorIntegration_mem_unit _
    · exact evaluatePredictions_mem_unit _ _
    · exact attentionFocus_mem_unit _ hp
    · exact behavioralConsistency_mem_unit _

end ConsciousDigitalTwin

/-! ### How each field of the returned `TwinState` is produced by `sync` -/

namespace ConsciousDigitalTwin

lemma sync_sync_accuracy (hash : ProofRecord → String) (e : ConsciousDigitalTwin)
    (p : PhysicalState) :
    (e.sync hash p).2.sync_accuracy = roundTo 4 (e.computeSyncAccuracy p) := rfl

lemma sync_level (hash : ProofRecord → String) (e : ConsciousDigitalTwin) (p : PhysicalState) :
    (e.sync hash p).2.consciousness_level = classify (e.compositeScore p) := rfl

lemma sync_score (hash : ProofRecord → String) (e : ConsciousDigitalTwin) (p : PhysicalState) :
    (e.sync hash p).2.consciousness_score = roundTo 4 (e.compositeScore p) := rfl

lemma sync_proof_hash (hash : ProofRecord → String) (e : ConsciousDigitalTwin)
    (p : PhysicalState) : (e.sync hash p).2.proof_hash = hash (e.proofRecord p) := rfl

lemma sync_anomalies (hash : ProofRecord → String) (e : ConsciousDigitalTwin)
    (p : PhysicalState) :
    (e.sync hash p).2.anomalies_detected =
      ({ e with physical_history := e.physical_history ++ [p] }).detectAnomalies p := rfl

/-- The count-based reading of `_evaluate_predictions` (lines 121-124): the
value as a function of the number of snapshots recorded, counting the
current one. -/
def predAccOfCount (n : ℕ) : ℚ :=
  if n < 3 then 3/10 else min 1 ((n : ℚ) / 20)

lemma roundTo_predAccOfCount (n : ℕ) : roundTo 4 (predAccOfCount n) = predAccOfCount n := by
  unfold predAccOfCount
  split_ifs with h
  · apply roundTo_eq_self 4 _ 3000
    norm_num
  · rcases le_total (1 : ℚ) ((n : ℚ) / 20) with h1 | h1
    · rw [min_eq_left h1]
      apply roundTo_eq_self 4 _ 10000
      norm_num
    · rw [min_eq_right h1]
      apply roundTo_eq_self 4 _ (500 * (n : ℤ))
      push_cast
      ring

lemma sync_prediction_accuracy (hash : ProofRecord → String) (e : ConsciousDigitalTwin)
    (p : PhysicalState) :
    (e.sync hash p).2.prediction_accuracy = predAccOfCount (e.physical_history.length + 1) := by
  have h : (e.sync hash p).2.prediction_accuracy =
      roundTo 4 (({ e with physical_history := e.physical_history ++ [p] }).evaluatePredictions p) :=
    rfl
  rw [h]
  have h2 : ({ e with physical_history := e.physical_history ++ [p] }).evaluatePredictions p =
      predAccOfCount (e.physical_history.length + 1) := by
    simp [evaluatePredictions, predAccOfCount, List.length_append]
  rw [h2, roundTo_predAccOfCount]

/-! ### One `sync` call appends exactly one entry to each history -/

lemma sync_lengths (hash : ProofRecord → String) (e : ConsciousDigitalTwin)
    (p : PhysicalState) :
    (e.sync hash p).1.physical_history.length = e.physical_history.length + 1 ∧
    (e.sync hash p).1.twin_history.length = e.twin_history.length + 1 ∧
    (e.sync hash p).1.predictions.length = e.predictions.length + 1 ∧
    (e.sync hash p).1.proof_chain.length = e.proof_chain.length + 1 := by
  refine ⟨?_, ?_, ?_, ?_⟩ <;> simp [sync, makePrediction]

lemma syncRun_lengths (hash : ProofRecord → String) (ps : List PhysicalState) :
    ∀ e : ConsciousDigitalTwin,
    (syncRun hash e ps).physical_history.length = e.physical_history.length + ps.length ∧
    (syncRun hash e ps).twin_history.length = e.twin_history.length + ps.length ∧
    (syncRun hash e ps).predictions.length = e.predictions.length + ps.length ∧
    (syncRun hash e ps).proof_chain.length = e.proof_chain.length + ps.length := by
  induction ps with
  | nil => intro e; simp [syncRun]
  | cons p ps ih =>
    intro e
    have hs := sync_lengths hash e p
    have hr := ih (e.sync hash p).1
    simp only [syncRun]
    refine ⟨?_, ?_, ?_, ?_⟩ <;> simp only [List.length_cons] <;> omega

/-! ### `sync` never reads `device_id` or `proof_chain` -/

lemma sync_device_id (hash : ProofRecord → String) (e : ConsciousDigitalTwin)
    (p : PhysicalState) (d : String) :
    ({ e with device_id := d }).sync hash p =
      ({ (e.sync hash p).1 with device_id := d }, (e.sync hash p).2) := rfl

lemma syncRun_device_id (hash : ProofRecord → String) (ps : List PhysicalState) :
    ∀ (e : ConsciousDigitalTwin) (d : String),
    syncRun hash ({ e with device_id := d }) ps =
      { syncRun hash e ps with device_id := d } := by
  induction ps with
  | nil => intro e d; rfl
  | cons p ps ih =>
    intro e d
    simp only [syncRun, sync_device_id]
    exact ih (e.sync hash p).1 d

lemma sync_proof_chain_not_read (hash : ProofRecord → String) (e : ConsciousDigitalTwin)
    (p : PhysicalState) (c : List String) :
    (({ e with proof_chain := c }).sync hash p).2 = (e.sync hash p).2 := rfl

end ConsciousDigitalTwin

/-! ### A checked mirror of the pipeline

Python raises on a zero division, on an out-of-range list index, and on a
fractional power of a negative float.  The checked variants return `none`
exactly where the Python interpreter would raise, so totality of `sync`
(claim: "never raises") is the statement that the checked pipeline always
returns `some` of the unchecked result. -/

/-- Division that fails (as Python would) on a zero denominator. -/
def pyDiv (a b : ℚ) : Option ℚ :=
  if b = 0 then none else some (a / b)

/-- `x ** 0.5`, failing on a negative operand (Python would leave the real
line there). -/
def pySqrt (q : ℚ) : Option ℚ :=
  if q < 0 then none else some (Rat.sqrt q)

namespace ConsciousDigitalTwin

/-- Checked `_compute_sync_accuracy` (lines 110-119). -/
def computeSyncAccuracyChecked (self : ConsciousDigitalTwin) (physical : PhysicalState) :
    Option ℚ :=
  match self.predictions.getLast? with
  | none => some (1/2)
  | some last_pred =>
    let errors := last_pred.sensors.filterMap fun kv =>
      match List.lookup kv.1 physical.sensors with
      | some actual => some (1 - min 1 |kv.2 - actual|)
      | none => none
    pyDiv errors.sum (max errors.length 1 : ℚ)

/-- Checked `_evaluate_predictions` (lines 121-124). -/
def evaluatePredictionsChecked (self : ConsciousDigitalTwin) (_physical : PhysicalState) :
    Option ℚ :=
  if self.physical_history.length < 3 then some (3/10)
  else (pyDiv (self.physical_history.length : ℚ) 20).map fun q => min 1 q

/-- Checked `_detect_anomalies` (lines 126-136): `history[-2]` fails when the
list is too short. -/
def detectAnomaliesChecked (self : ConsciousDigitalTwin) (physical : PhysicalState) :
    Option ℕ :=
  if self.physical_history.length < 2 then some 0
  else
    match self.physical_history.dropLast.getLast? with
    | none => none
    | some prev =>
      some (physical.sensors.countP fun kv =>
        match List.lookup kv.1 prev.sensors with
        | some pv => decide (1/2 < |kv.2 - pv|)
        | none => false)

/-- Checked `_sensor_integration` (lines 138-149). -/
def sensorIntegrationChecked (physical : PhysicalState) : Option ℚ :=
  if physical.sensors.isEmpty then some 0
  else
    let values := physical.sensors.map (·.2)
    if values.length < 2 then some (3/10)
    else do
      let mean ← pyDiv values.sum (values.length : ℚ)
      if mean = 0 then some 0
      else do
        let variance ← pyDiv (values.map fun v => (v - mean) ^ 2).sum (values.length : ℚ)
        let root ← pySqrt variance
        let cv ← pyDiv root |mean|
        some (max 0 (min 1 (1 - cv)))

/-- Checked `_behavioral_consistency` (lines 154-160). -/
def behavioralConsistencyChecked (self : ConsciousDigitalTwin) : Option ℚ :=
  if self.twin_history.length < 3 then some (1/2)
  else do
    let scores := self.twin_history.map (·.consciousness_score)
    let recent := scores.drop (scores.length - 5)
    let mean ← pyDiv recent.sum (recent.length : ℚ)
    let variance ← pyDiv (recent.map fun s => (s - mean) ^ 2).sum (recent.length : ℚ)
    some (max 0 (1 - variance * 10))

/-- Checked `_make_prediction` (lines 162-171): `history[-2]` fails when the
list is too short. -/
def makePredictionChecked (self : ConsciousDigitalTwin) (physical : PhysicalState) :
    Option ConsciousDigitalTwin :=
  if 2 ≤ self.physical_history.length then
    match self.physical_history.dropLast.getLast? with
    | none => none
    | some prevSnap =>
      some { self with predictions := self.predictions ++
        [⟨physical.sensors.map fun kv =>
          (kv.1, kv.2 + (kv.2 - (List.lookup kv.1 prevSnap.sensors).getD kv.2) * (1/2))⟩] }
  else
    some { self with predictions := self.predictions ++
      [⟨physical.sensors.map fun kv => (kv.1, kv.2)⟩] }

/-- Checked `sync` (lines 52-108): fails wherever any sub-step would raise. -/
def syncChecked (hash : ProofRecord → String) (self : ConsciousDigitalTwin)
    (physical : PhysicalState) : Option (ConsciousDigitalTwin × TwinState) := do
  let s1 := { self with physical_history := self.physical_history ++ [physical] }
  let sync_accuracy ← s1.computeSyncAccuracyChecked physical
  let prediction_accuracy ← s1.evaluatePredictionsChecked physical
  let anomalies ← s1.detectAnomaliesChecked physical
  let self_monitoring ← pyDiv (s1.twin_history.length : ℚ) 10
  let integration ← sensorIntegrationChecked physical
  let consistency ← s1.behavioralConsistencyChecked
  let inds : List ℚ := [sync_accuracy, min 1 self_monitoring, integration,
    prediction_accuracy, attentionFocus physical, consistency]
  let score ← pyDiv inds.sum (inds.length : ℚ)
  let level := classify score
  let proof_hash := hash ⟨s1.twin_id, physical.timestamp, roundTo 6 score, level, anomalies⟩
  let s2 := { s1 with proof_chain := s1.proof_chain ++ [proof_hash] }
  let s3 ← s2.makePredictionChecked physical
  let twin_state : TwinState :=
    ⟨s3.twin_id, roundTo 4 sync_accuracy, roundTo 4 prediction_accuracy,
      anomalies, level, roundTo 4 score, proof_hash⟩
  some ({ s3 with twin_history := s3.twin_history ++ [twin_state] }, twin_state)

end ConsciousDigitalTwin

/-! ### The checked pipeline never fails and agrees with the total one -/

namespace ConsciousDigitalTwin

lemma computeSyncAccuracyChecked_eq (self : ConsciousDigitalTwin) (p : PhysicalState) :
    self.computeSyncAccuracyChecked p = some (self.computeSyncAccuracy p) := by
  unfold computeSyncAccuracyChecked computeSyncAccuracy
  cases self.predictions.getLast? with
  | none => rfl
  | some last_pred =>
    simp only [pyDiv]
    rw [if_neg]
    exact ne_of_gt (lt_max_iff.mpr (Or.inr one_pos))

lemma evaluatePredictionsChecked_eq (self : ConsciousDigitalTwin) (p : PhysicalState) :
    self.evaluatePredictionsChecked p = some (self.evaluatePredictions p) := by
  unfold evaluatePredictionsChecked evaluatePredictions
  split_ifs
  · rfl
  · simp [pyDiv]

lemma dropLast_getLast?_isSome (l : List PhysicalState) (h : 2 ≤ l.length) :
    ∃ prev, l.dropLast.getLast? = some prev := by
  cases hx : l.dropLast.getLast? with
  | none =>
    have : l.dropLast = [] := List.getLast?_eq_none_iff.mp hx
    have hlen : l.dropLast.length = l.length - 1 := List.length_dropLast l
    rw [this] at hlen
    simp at hlen
    omega
  | some prev => exact ⟨prev, rfl⟩

lemma detectAnomaliesChecked_eq (self : ConsciousDigitalTwin) (p : PhysicalState) :
    self.detectAnomaliesChecked p = some (self.detectAnomalies p) := by
  unfold detectAnomaliesChecked detectAnomalies
  split_ifs with h
  · rfl
  · rcases dropLast_getLast?_isSome self.physical_history (by omega) with ⟨prev, hx⟩
    rw [hx]

lemma sensorIntegrationChecked_eq (p : PhysicalState) :
    sensorIntegrationChecked p = some (sensorIntegration p) := by
  simp only [sensorIntegrationChecked, sensorIntegration]
  split_ifs with h1 h2 h3
  · rfl
  · rfl
  · have hlen : (((p.sensors.map (·.2)).length : ℕ) : ℚ) ≠ 0 := by
      have : 2 ≤ (p.sensors.map (·.2)).length := by omega
      positivity
    simp only [pyDiv, if_neg hlen, Option.bind_eq_bind, Option.some_bind, if_pos h3]
  · have hlen : (((p.sensors.map (·.2)).length : ℕ) : ℚ) ≠ 0 := by
      have : 2 ≤ (p.sensors.map (·.2)).length := by omega
      positivity
    have hvar := sq_dev_mean_nonneg (p.sensors.map (·.2))
      ((p.sensors.map (·.2)).sum / (((p.sensors.map (·.2)).length : ℕ) : ℚ))
    simp only [pyDiv, pySqrt, if_neg hlen, Option.bind_eq_bind, Option.some_bind, if_neg h3,
      if_neg (not_lt.mpr hvar), if_neg (abs_ne_zero.mpr h3)]

lemma behavioralConsistencyChecked_eq (self : ConsciousDigitalTwin) :
    self.behavioralConsistencyChecked = some self.behavioralConsistency := by
  simp only [behavioralConsistencyChecked, behavioralConsistency]
  split_ifs with h
  · rfl
  · have hrec : ((((self.twin_history.map (·.consciousness_score)).drop
        ((self.twin_history.map (·.consciousness_score)).length - 5)).length : ℕ) : ℚ) ≠ 0 := by
      have hl : (self.twin_history.map (·.consciousness_score)).length =
          self.twin_history.length := List.length_map _ _
      have : 0 < ((self.twin_history.map (·.consciousness_score)).drop
          ((self.twin_history.map (·.consciousness_score)).length - 5)).length := by
        rw [List.length_drop]
        omega
      positivity
    simp only [pyDiv, if_neg hrec, Option.bind_eq_bind, Option.some_bind]

lemma makePredictionChecked_eq (self : ConsciousDigitalTwin) (p : PhysicalState) :
    self.makePredictionChecked p = some (self.makePrediction p) := by
  simp only [makePredictionChecked, makePrediction]
  split_ifs with h
  · rcases dropLast_getLast?_isSome self.physical_history h with ⟨prev, hx⟩
    simp only [hx]
  · simp only [if_neg h]

lemma syncChecked_eq (hash : ProofRecord → String) (self : ConsciousDigitalTwin)
    (p : PhysicalState) : self.syncChecked hash p = some (self.sync hash p) := by
  simp only [syncChecked, sync]
  rw [computeSyncAccuracyChecked_eq, evaluatePredictionsChecked_eq, detectAnomaliesChecked_eq,
    sensorIntegrationChecked_eq, behavioralConsistencyChecked_eq]
  simp only [makePredictionChecked_eq, Option.bind_eq_bind, Option.some_bind]
  simp [pyDiv, indicators]

end ConsciousDigitalTwin

/-! ### Spec-side formulations of sync accuracy and anomaly counting -/

namespace ConsciousDigitalTwin

/-- The spec's reading of lines 114-119: the mean, over the sensor keys
present both in the last stored prediction and in the new snapshot, of the
per-key accuracy `1 - min 1 |predicted - actual|` (an empty mean is 0, by
the `0/0 = 0` convention of `ℚ` division). -/
def sharedKeyAccuracyMean (pr : Prediction) (p : PhysicalState) : ℚ :=
  let contribs := pr.sensors.filterMap fun kv =>
    (List.lookup kv.1 p.sensors).map fun actual => 1 - min 1 |kv.2 - actual|
  contribs.sum / (contribs.length : ℚ)


lemma computeSyncAccuracy_eq_sharedKeyAccuracyMean (self : ConsciousDigitalTwin)
    (p : PhysicalState) (pr : Prediction) (hpr : self.predictions.getLast? = some pr) :
    self.computeSyncAccuracy p = sharedKeyAccuracyMean pr p := by
  unfold computeSyncAccuracy sharedKeyAccuracyMean
  rw [hpr]
  dsimp only
  have hfm : (pr.sensors.filterMap fun kv =>
      match List.lookup kv.1 p.sensors with
      | some actual => some (1 - min 1 |kv.2 - actual|)
      | none => none) =
      pr.sensors.filterMap fun kv =>
        (List.lookup kv.1 p.sensors).map fun actual => 1 - min 1 |kv.2 - actual| := by
    apply List.filterMap_congr
    intro kv _
    cases List.lookup kv.1 p.sensors <;> rfl
  rw [hfm]
  by_cases hnil : (pr.sensors.filterMap fun kv =>
      (List.lookup kv.1 p.sensors).map fun actual => 1 - min 1 |kv.2 - actual|) = []
  · rw [hnil]
    norm_num
  · have hlen : 1 ≤ (pr.sensors.filterMap fun kv =>
        (List.lookup kv.1 p.sensors).map fun actual => 1 - min 1 |kv.2 - actual|).length :=
      List.length_pos.mpr hnil
    rw [max_eq_left (by exact_mod_cast hlen :
      (1 : ℚ) ≤ ((pr.sensors.filterMap fun kv =>
        (List.lookup kv.1 p.sensors).map fun actual => 1 - min 1 |kv.2 - actual|).length : ℚ))]

/-- The spec's reading of lines 129-136: the number of sensor keys present
in both snapshots whose absolute change strictly exceeds `0.5`. -/
def anomalyCount (prev cur : List (String × ℚ)) : ℕ :=
  cur.countP fun kv =>
    match List.lookup kv.1 prev with
    | some pv => decide (1/2 < |kv.2 - pv|)
    | none => false

lemma sync_anomalies_eq_anomalyCount (hash : ProofRecord → String)
    (e : ConsciousDigitalTwin) (p : PhysicalState) (prev : PhysicalState)
    (hprev : e.physical_history.getLast? = some prev) :
    (e.sync hash p).2.anomalies_detected = anomalyCount prev.sensors p.sensors := by
  rw [sync_anomalies]
  have hne : e.physical_history ≠ [] := by
    intro hcon
    rw [hcon] at hprev
    simp at hprev
  unfold detectAnomalies
  rw [if_neg (by
    simp only [List.length_append, List.length_cons, List.length_nil]
    have := List.length_pos.mpr hne
    omega)]
  rw [show ({ e with physical_history := e.physical_history ++ [p] } :
      ConsciousDigitalTwin).physical_history = e.physical_history ++ [p] from rfl]
  rw [List.dropLast_concat, hprev]
  rfl

end ConsciousDigitalTwin

/-! ### Concrete fixtures used by witnesses and counterexamples -/

/-- A stand-in digest function; the claims hold for every hash function. -/
def hashConst : ProofRecord → String := fun _ => "digest"

/-- A snapshot with an out-of-range negative `health`. -/
def pNegHealth : PhysicalState := { health := -10 }

/-- An engine state holding one stored prediction for the sensor `x`. -/
def eWithPred : ConsciousDigitalTwin :=
  ⟨"T1", "D1", [], [], [], [⟨[("x", 1)]⟩]⟩

/-- A recorded twin state carrying the rounded score `0.85`. -/
def ts85 : TwinState :=
  { twin_id := "T1", consciousness_score := 17/20 }

/-- An engine state engineered so that the composite score of the next
`sync` call is exactly `0.84997`: 19 recorded snapshots (prediction
indicator saturated at `min 1 (20/20) = 1`), 3 recorded twin states with
equal scores (self-monitoring `3/10`, consistency `1`), and a stored
prediction matching the next snapshot exactly (sync accuracy `1`). -/
def eC10 : ConsciousDigitalTwin :=
  ⟨"T1", "D1", List.replicate 19 {}, [ts85, ts85, ts85], [],
    [⟨[("x", 1), ("y", 1)]⟩]⟩

/-- The snapshot driving `eC10` to the composite score `0.84997`: two
identical sensor readings (integration `1`) and
`health = 0.79982` (attention), giving
`(1 + 3/10 + 1 + 1 + 79982/100000 + 1)/6 = 84997/100000`. -/
def pC10 : PhysicalState :=
  { sensors := [("x", 1), ("y", 1)], health := 79982/100000 }

namespace ConsciousDigitalTwin

lemma predAccOfCount_mem_unit (n : ℕ) : 0 ≤ predAccOfCount n ∧ predAccOfCount n ≤ 1 := by
  unfold predAccOfCount
  split_ifs
  · norm_num
  · exact min_one_mem_unit _ (by positivity)

end ConsciousDigitalTwin

/-! ### The claims -/

open ConsciousDigitalTwin

/-- C1, counterexample: the claim asserts `consciousness_score ∈ [0,1]` for
every snapshot "including out-of-range health values", but `_attention_focus`
(line 152) clamps `health` only from above, so the very first `sync` of a
fresh engine on a snapshot with `health = -10` and no sensors returns the
consciousness score `-1.45 < 0`. -/
theorem claim_C1_counterexample :
    ((ConsciousDigitalTwin.init "T1" "D1").sync hashConst pNegHealth).2.consciousness_score < 0 := by
  norm_num [ConsciousDigitalTwin.sync, ConsciousDigitalTwin.init, pNegHealth,
    ConsciousDigitalTwin.computeSyncAccuracy, ConsciousDigitalTwin.evaluatePredictions,
    ConsciousDigitalTwin.detectAnomalies, ConsciousDigitalTwin.indicators,
    ConsciousDigitalTwin.sensorIntegration, ConsciousDigitalTwin.attentionFocus,
    ConsciousDigitalTwin.behavioralConsistency, ConsciousDigitalTwin.makePrediction,
    classify, roundTo, roundHalfEven]

/-- C1, amended: for every `sync` call on any engine state and any
`PhysicalState` input, `sync_accuracy` and `prediction_accuracy` lie in
`[0,1]`; `consciousness_score` lies in `[0,1]` whenever the snapshot's
`health` is nonnegative (an out-of-range `health` above 1 is clamped, but a
negative `health` passes through and can push the score below 0). -/
theorem claim_C1 (hash : ProofRecord → String) (e : ConsciousDigitalTwin) (p : PhysicalState) :
    (0 ≤ (e.sync hash p).2.sync_accuracy ∧ (e.sync hash p).2.sync_accuracy ≤ 1) ∧
    (0 ≤ (e.sync hash p).2.prediction_accuracy ∧ (e.sync hash p).2.prediction_accuracy ≤ 1) ∧
    (0 ≤ p.health →
      0 ≤ (e.sync hash p).2.consciousness_score ∧ (e.sync hash p).2.consciousness_score ≤ 1) := by
  refine ⟨?_, ?_, ?_⟩
  · rw [sync_sync_accuracy]
    rcases computeSyncAccuracy_mem_unit e p with ⟨h0, h1⟩
    exact ⟨roundTo_nonneg _ _ h0, roundTo_le_one _ _ h1⟩
  · rw [sync_prediction_accuracy]
    exact predAccOfCount_mem_unit _
  · intro hp
    rw [sync_score]
    rcases compositeScore_mem_unit e p hp with ⟨h0, h1⟩
    exact ⟨roundTo_nonneg _ _ h0, roundTo_le_one _ _ h1⟩

/-- C1, witness: the amended bounds instantiated on a fresh engine and the
default snapshot, whose `health` is 1. -/
theorem claim_C1_witness :
    0 ≤ ((ConsciousDigitalTwin.init "T1" "D1").sync hashConst {}).2.consciousness_score ∧
    ((ConsciousDigitalTwin.init "T1" "D1").sync hashConst {}).2.consciousness_score ≤ 1 :=
  (claim_C1 hashConst (ConsciousDigitalTwin.init "T1" "D1") {}).2.2 (by norm_num)

/-- C2: the level returned by `sync` is `classify` of the (unrounded)
composite score, and `classify` is the five-tier ladder with inclusive
lower bounds `0.85 / 0.70 / 0.50 / 0.20`; each boundary value falls in the
higher tier. -/
theorem claim_C2 :
    (∀ (hash : ProofRecord → String) (e : ConsciousDigitalTwin) (p : PhysicalState),
      (e.sync hash p).2.consciousness_level = classify (e.compositeScore p)) ∧
    (∀ s : ℚ, 85/100 ≤ s → classify s = "C-4 Transcendent") ∧
    (∀ s : ℚ, 70/100 ≤ s → s < 85/100 → classify s = "C-3 Autonomous") ∧
    (∀ s : ℚ, 50/100 ≤ s → s < 70/100 → classify s = "C-2 Emerging") ∧
    (∀ s : ℚ, 20/100 ≤ s → s < 50/100 → classify s = "C-1 Functional") ∧
    (∀ s : ℚ, s < 20/100 → classify s = "C-0 Reactive") ∧
    classify (85/100) = "C-4 Transcendent" ∧ classify (70/100) = "C-3 Autonomous" ∧
    classify (50/100) = "C-2 Emerging" ∧ classify (20/100) = "C-1 Functional" := by
  refine ⟨sync_level, ?_, ?_, ?_, ?_, ?_, ?_, ?_, ?_, ?_⟩
  · intro s h
    unfold classify
    rw [if_pos h]
  · intro s h1 h2
    unfold classify
    rw [if_neg (not_le.mpr h2), if_pos h1]
  · intro s h1 h2
    unfold classify
    rw [if_neg (not_le.mpr (h2.trans_le (by norm_num))), if_neg (not_le.mpr h2), if_pos h1]
  · intro s h1 h2
    unfold classify
    rw [if_neg (not_le.mpr (h2.trans_le (by norm_num))),
      if_neg (not_le.mpr (h2.trans_le (by norm_num))), if_neg (not_le.mpr h2), if_pos h1]
  · intro s h1
    unfold classify
    rw [if_neg (not_le.mpr (h1.trans_le (by norm_num))),
      if_neg (not_le.mpr (h1.trans_le (by norm_num))),
      if_neg (not_le.mpr (h1.trans_le (by norm_num))), if_neg (not_le.mpr h1)]
  · norm_num [classify]
  · norm_num [classify]
  · norm_num [classify]
  · norm_num [classify]

/-- C2, witness: the tiers evaluated on one value inside each band. -/
theorem claim_C2_witness :
    classify (9/10) = "C-4 Transcendent" ∧ classify (3/4) = "C-3 Autonomous" ∧
    classify (6/10) = "C-2 Emerging" ∧ classify (3/10) = "C-1 Functional" ∧
    classify (1/10) = "C-0 Reactive" :=
  ⟨claim_C2.2.1 _ (by norm_num), claim_C2.2.2.1 _ (by norm_num) (by norm_num),
    claim_C2.2.2.2.1 _ (by norm_num) (by norm_num),
    claim_C2.2.2.2.2.1 _ (by norm_num) (by norm_num),
    claim_C2.2.2.2.2.2.1 _ (by norm_num)⟩

/-- C3: after a fresh engine processes `n` snapshots, all four internal
histories have length exactly `n`. -/
theorem claim_C3 (hash : ProofRecord → String) (tid did : String) (ps : List PhysicalState) :
    (syncRun hash (ConsciousDigitalTwin.init tid did) ps).physical_history.length = ps.length ∧
    (syncRun hash (ConsciousDigitalTwin.init tid did) ps).twin_history.length = ps.length ∧
    (syncRun hash (ConsciousDigitalTwin.init tid did) ps).predictions.length = ps.length ∧
    (syncRun hash (ConsciousDigitalTwin.init tid did) ps).proof_chain.length = ps.length := by
  have h := syncRun_lengths hash ps (ConsciousDigitalTwin.init tid did)
  simpa [ConsciousDigitalTwin.init] using h

/-- C4: two engines constructed with the same `twin_id` (the `device_id`
may even differ, it is never read by `sync`) and fed the same snapshot
sequence produce the same proof-hash chain, for every hash function: the
chain is a deterministic function of the construction arguments and the
snapshot sequence. -/
theorem claim_C4 (hash : ProofRecord → String) (tid did1 did2 : String)
    (ps : List PhysicalState) :
    (syncRun hash (ConsciousDigitalTwin.init tid did1) ps).proof_chain =
      (syncRun hash (ConsciousDigitalTwin.init tid did2) ps).proof_chain := by
  have h : ConsciousDigitalTwin.init tid did1 =
      { ConsciousDigitalTwin.init tid did2 with device_id := did1 } := rfl
  rw [h, syncRun_device_id]

/-- C5, counterexample: `prediction_accuracy` is not non-decreasing across
calls: on a fresh engine the second call returns `0.3` (fewer than 3
snapshots) but the third returns `min 1 (3/20) = 0.15 < 0.3`. -/
theorem claim_C5_counterexample :
    ((((ConsciousDigitalTwin.init "T1" "D1").sync hashConst {}).1.sync
        hashConst {}).2.prediction_accuracy = 3/10) ∧
    (((((ConsciousDigitalTwin.init "T1" "D1").sync hashConst {}).1.sync
        hashConst {}).1.sync hashConst {}).2.prediction_accuracy = 3/20) ∧
    ((3:ℚ)/20 < 3/10) := by
  refine ⟨?_, ?_, by norm_num⟩ <;>
    norm_num [ConsciousDigitalTwin.sync, ConsciousDigitalTwin.init,
      ConsciousDigitalTwin.computeSyncAccuracy, ConsciousDigitalTwin.evaluatePredictions,
      ConsciousDigitalTwin.detectAnomalies, ConsciousDigitalTwin.indicators,
      ConsciousDigitalTwin.sensorIntegration, ConsciousDigitalTwin.attentionFocus,
      ConsciousDigitalTwin.behavioralConsistency, ConsciousDigitalTwin.makePrediction,
      classify, roundTo, roundHalfEven]

/-- C5, amended: `prediction_accuracy` returned by `sync` is `0.3` when
fewer than 3 snapshots have been recorded (counting the current one) and
`min 1 (n/20)` otherwise; it is non-decreasing among calls with at least 3
recorded snapshots and constant among calls with fewer than 3, but it drops
from `0.3` to `0.15` at the third snapshot, so it is not monotone across
that boundary. -/
theorem claim_C5 (hash : ProofRecord → String) (e : ConsciousDigitalTwin) (p : PhysicalState) :
    (e.sync hash p).2.prediction_accuracy = predAccOfCount (e.physical_history.length + 1) ∧
    (∀ n : ℕ, n < 3 → predAccOfCount n = 3/10) ∧
    (∀ n : ℕ, 3 ≤ n → predAccOfCount n = min 1 ((n : ℚ) / 20)) ∧
    (∀ m n : ℕ, 3 ≤ m → m ≤ n → predAccOfCount m ≤ predAccOfCount n) ∧
    (∀ m n : ℕ, m ≤ n → n < 3 → predAccOfCount m = predAccOfCount n) := by
  refine ⟨sync_prediction_accuracy hash e p, ?_, ?_, ?_, ?_⟩
  · intro n h
    unfold predAccOfCount
    rw [if_pos h]
  · intro n h
    unfold predAccOfCount
    rw [if_neg (by omega)]
  · intro m n h3 hmn
    unfold predAccOfCount
    rw [if_neg (by omega), if_neg (by omega)]
    have hc : (m : ℚ) ≤ (n : ℚ) := by exact_mod_cast hmn
    exact min_le_min le_rfl (by linarith)
  · intro m n hmn h3
    unfold predAccOfCount
    rw [if_pos (by omega), if_pos h3]

/-- C5, witness: the amended statement instantiated on a fresh engine (first
call yields the default 0.3) and at concrete history sizes. -/
theorem claim_C5_witness :
    ((ConsciousDigitalTwin.init "T1" "D1").sync hashConst {}).2.prediction_accuracy =
      predAccOfCount 1 ∧
    predAccOfCount 2 = 3/10 ∧ predAccOfCount 4 = min 1 (((4:ℕ) : ℚ) / 20) ∧
    predAccOfCount 5 ≤ predAccOfCount 25 ∧ predAccOfCount 1 = predAccOfCount 2 := by
  have h := claim_C5 hashConst (ConsciousDigitalTwin.init "T1" "D1") {}
  exact ⟨h.1, h.2.1 2 (by norm_num), h.2.2.1 4 (by norm_num),
    h.2.2.2.1 5 25 (by norm_num) (by norm_num), h.2.2.2.2 1 2 (by norm_num) (by norm_num)⟩

/-- C6: on the first call of an engine (no stored prediction) the returned
`sync_accuracy` is exactly `0.5`; the returned field is the 4-decimal
rounding of `_compute_sync_accuracy`, whose unrounded value on every later
call is the mean over the sensor keys shared between the last stored
prediction and the new snapshot of `1 - min 1 |predicted - actual|`, and is
`0` when no key is shared. -/
theorem claim_C6 :
    (∀ (hash : ProofRecord → String) (e : ConsciousDigitalTwin) (p : PhysicalState),
      e.predictions = [] → (e.sync hash p).2.sync_accuracy = 1/2) ∧
    (∀ (hash : ProofRecord → String) (e : ConsciousDigitalTwin) (p : PhysicalState),
      (e.sync hash p).2.sync_accuracy = roundTo 4 (e.computeSyncAccuracy p)) ∧
    (∀ (e : ConsciousDigitalTwin) (p : PhysicalState) (pr : Prediction),
      e.predictions.getLast? = some pr →
      e.computeSyncAccuracy p = sharedKeyAccuracyMean pr p) ∧
    (∀ (e : ConsciousDigitalTwin) (p : PhysicalState) (pr : Prediction),
      e.predictions.getLast? = some pr →
      (∀ kv ∈ pr.sensors, List.lookup kv.1 p.sensors = none) →
      e.computeSyncAccuracy p = 0) := by
  refine ⟨?_, sync_sync_accuracy, computeSyncAccuracy_eq_sharedKeyAccuracyMean, ?_⟩
  · intro hash e p hpred
    rw [sync_sync_accuracy]
    have hc : e.computeSyncAccuracy p = 1/2 := by
      unfold computeSyncAccuracy
      rw [hpred]
      rfl
    rw [hc]
    exact roundTo_eq_self 4 _ 5000 (by norm_num)
  · intro e p pr hpr hnone
    rw [computeSyncAccuracy_eq_sharedKeyAccuracyMean e p pr hpr]
    unfold sharedKeyAccuracyMean
    rw [List.filterMap_eq_nil_iff.mpr (fun kv hkv => by rw [hnone kv hkv]; rfl)]
    norm_num

/-- C6, witness: the first-call default on a fresh engine, and the mean /
no-shared-key cases on an engine holding one prediction for sensor `x`
against a snapshot with no sensors. -/
theorem claim_C6_witness :
    ((ConsciousDigitalTwin.init "T1" "D1").sync hashConst {}).2.sync_accuracy = 1/2 ∧
    eWithPred.computeSyncAccuracy {} = sharedKeyAccuracyMean ⟨[("x", 1)]⟩ {} ∧
    eWithPred.computeSyncAccuracy {} = 0 := by
  refine ⟨claim_C6.1 hashConst (ConsciousDigitalTwin.init "T1" "D1") {} rfl,
    claim_C6.2.2.1 eWithPred {} ⟨[("x", 1)]⟩ rfl, ?_⟩
  exact claim_C6.2.2.2 eWithPred {} ⟨[("x", 1)]⟩ rfl (by intro kv hkv; rfl)

/-- C7: `anomalies_detected` is 0 on the first call (fewer than 2 snapshots
in history); otherwise it counts the sensor keys shared with the
immediately preceding snapshot whose absolute change strictly exceeds
`0.5`; if every shared key is unchanged the count is 0, and replacing a
matching key's value `v` by `v + (0.5 + ε)` for any `ε > 0` increments the
count by exactly 1. -/
theorem claim_C7 :
    (∀ (hash : ProofRecord → String) (e : ConsciousDigitalTwin) (p : PhysicalState),
      e.physical_history = [] → (e.sync hash p).2.anomalies_detected = 0) ∧
    (∀ (hash : ProofRecord → String) (e : ConsciousDigitalTwin) (p prev : PhysicalState),
      e.physical_history.getLast? = some prev →
      (e.sync hash p).2.anomalies_detected = anomalyCount prev.sensors p.sensors) ∧
    (∀ prev cur : List (String × ℚ),
      (∀ kv ∈ cur, ∀ pv, List.lookup kv.1 prev = some pv → kv.2 = pv) →
      anomalyCount prev cur = 0) ∧
    (∀ (prev cur : List (String × ℚ)) (k : String) (v ε : ℚ), 0 < ε →
      List.lookup k prev = some v →
      anomalyCount prev ((k, v + (1/2 + ε)) :: cur) =
        anomalyCount prev ((k, v) :: cur) + 1) := by
  refine ⟨?_, sync_anomalies_eq_anomalyCount, ?_, ?_⟩
  · intro hash e p h
    rw [sync_anomalies]
    unfold detectAnomalies
    rw [if_pos (by simp [h])]
  · intro prev cur h
    unfold anomalyCount
    rw [List.countP_eq_zero]
    intro kv hkv
    cases hv : List.lookup kv.1 prev with
    | none => simp [hv]
    | some pv =>
      have heq := h kv hkv pv hv
      simp [hv, heq]
  · intro prev cur k v ε hε hk
    unfold anomalyCount
    rw [List.countP_cons, List.countP_cons]
    have habs : |v + (1/2 + ε) - v| = 1/2 + ε := by
      rw [show v + (1/2 + ε) - v = 1/2 + ε from by ring]
      exact abs_of_pos (by linarith)
    have habs0 : |v - v| = 0 := by simp
    simp only [hk, habs, habs0, decide_eq_true_eq]
    rw [if_pos (by linarith), if_neg (by norm_num)]

/-- C7, witness: the shared-key scenarios at concrete sensor lists: an
unchanged key gives count 0, and bumping it by `0.5 + 1` gives count 1. -/
theorem claim_C7_witness :
    anomalyCount [("x", (2:ℚ))] [("x", (2:ℚ))] = 0 ∧
    anomalyCount [("x", (2:ℚ))] [("x", 2 + (1/2 + 1))] = anomalyCount [("x", (2:ℚ))] [("x", 2)] + 1 ∧
    ((ConsciousDigitalTwin.init "T1" "D1").sync hashConst {}).2.anomalies_detected = 0 := by
  refine ⟨?_, ?_, claim_C7.1 hashConst (ConsciousDigitalTwin.init "T1" "D1") {} rfl⟩
  · exact claim_C7.2.2.1 [("x", (2:ℚ))] [("x", (2:ℚ))] (by
      intro kv hkv pv hpv
      simp at hkv
      subst hkv
      simp at hpv
      simp [hpv])
  · exact claim_C7.2.2.2 [("x", (2:ℚ))] [] "x" 2 1 (by norm_num) rfl

/-- C8: `sync` is total — the checked pipeline, which fails exactly where
the Python interpreter would raise (zero divisions, out-of-range history
indexing, negative radicand), always returns `some` of the total result;
and a snapshot with an empty sensors mapping resolves the integration
indicator to 0. -/
theorem claim_C8 (hash : ProofRecord → String) (e : ConsciousDigitalTwin) (p : PhysicalState) :
    e.syncChecked hash p = some (e.sync hash p) ∧
    (p.sensors = [] → sensorIntegration p = 0) := by
  refine ⟨syncChecked_eq hash e p, ?_⟩
  intro h
  unfold sensorIntegration
  rw [if_pos (by rw [h]; rfl)]

/-- C8, witness: totality of the first call of a fresh engine on the default
snapshot, whose sensors mapping is empty. -/
theorem claim_C8_witness :
    (ConsciousDigitalTwin.init "T1" "D1").syncChecked hashConst {} =
      some ((ConsciousDigitalTwin.init "T1" "D1").sync hashConst {}) ∧
    sensorIntegration {} = 0 := by
  have h := claim_C8 hashConst (ConsciousDigitalTwin.init "T1" "D1") {}
  exact ⟨h.1, h.2 rfl⟩

/-- C9: the appended proof hash is the hash of the five-field record
(`twin_id`, current timestamp, score rounded to 6 decimals, level, anomaly
count) only; the prior proof chain is never read by `sync` (so the entries
are not cryptographically linked), and any two engine states whose current
assessments agree on the five-field record receive the same appended
hash. -/
theorem claim_C9 :
    (∀ (hash : ProofRecord → String) (e : ConsciousDigitalTwin) (p : PhysicalState),
      (e.sync hash p).2.proof_hash = hash (e.proofRecord p)) ∧
    (∀ (hash : ProofRecord → String) (e : ConsciousDigitalTwin) (p : PhysicalState)
      (c : List String),
      (({ e with proof_chain := c }).sync hash p).2 = (e.sync hash p).2) ∧
    (∀ (hash : ProofRecord → String) (e1 e2 : ConsciousDigitalTwin) (p1 p2 : PhysicalState),
      e1.proofRecord p1 = e2.proofRecord p2 →
      (e1.sync hash p1).2.proof_hash = (e2.sync hash p2).2.proof_hash) := by
  refine ⟨sync_proof_hash, sync_proof_chain_not_read, ?_⟩
  intro hash e1 e2 p1 p2 h
  rw [sync_proof_hash, sync_proof_hash, h]

/-- C9, witness: two fresh engines whose proof chains differ entirely (one
already holds a junk entry) append the same hash for the same snapshot. -/
theorem claim_C9_witness :
    ((ConsciousDigitalTwin.init "T1" "D1").sync hashConst {}).2.proof_hash =
      (({ ConsciousDigitalTwin.init "T1" "D1" with proof_chain := ["junk"] }).sync
        hashConst {}).2.proof_hash :=
  claim_C9.2.2 hashConst (ConsciousDigitalTwin.init "T1" "D1")
    { ConsciousDigitalTwin.init "T1" "D1" with proof_chain := ["junk"] } {} {} rfl

lemma roundTo4_near_85 (s : ℚ) (h1 : 84995/100000 ≤ s) (h2 : s < 85/100) :
    roundTo 4 s = 85/100 := by
  have hpow : (10 : ℚ) ^ 4 = 10000 := by norm_num
  have hfl : ⌊s * 10 ^ 4⌋ = 8499 := by
    rw [Int.floor_eq_iff]
    rw [hpow]
    constructor
    · push_cast
      linarith
    · push_cast
      linarith
  unfold roundTo roundHalfEven
  rw [hfl]
  split_ifs with ha hb hc
  · exfalso
    rw [hpow] at ha
    push_cast at ha
    linarith
  · norm_num
  · exfalso
    omega
  · norm_num

/-- C10: the returned `consciousness_level` is computed from the unrounded
composite score while `consciousness_score` is the 4-decimal rounding of
that score; every score in `[0.84995, 0.85)` is labelled "C-3 Autonomous"
but rounds to `0.85`, whose tier is "C-4 Transcendent"; and the divergence
is realized by an actual `sync` call whose composite score is exactly
`0.84997`. -/
theorem claim_C10 :
    (∀ (hash : ProofRecord → String) (e : ConsciousDigitalTwin) (p : PhysicalState),
      (e.sync hash p).2.consciousness_level = classify (e.compositeScore p) ∧
      (e.sync hash p).2.consciousness_score = roundTo 4 (e.compositeScore p)) ∧
    (∀ s : ℚ, 84995/100000 ≤ s → s < 85/100 →
      classify s = "C-3 Autonomous" ∧ roundTo 4 s = 85/100 ∧
      classify (roundTo 4 s) = "C-4 Transcendent") ∧
    ((eC10.sync hashConst pC10).2.consciousness_level = "C-3 Autonomous" ∧
      (eC10.sync hashConst pC10).2.consciousness_score = 17/20 ∧
      classify (17/20) = "C-4 Transcendent") := by
  refine ⟨fun hash e p => ⟨sync_level hash e p, sync_score hash e p⟩, ?_, ?_, ?_, ?_⟩
  · intro s h1 h2
    have hr : roundTo 4 s = 85/100 := roundTo4_near_85 s h1 h2
    refine ⟨?_, hr, by rw [hr]; norm_num [classify]⟩
    unfold classify
    rw [if_neg (not_le.mpr h2), if_pos (by linarith)]
  · norm_num [ConsciousDigitalTwin.sync, ConsciousDigitalTwin.indicators,
      ConsciousDigitalTwin.computeSyncAccuracy, ConsciousDigitalTwin.evaluatePredictions,
      ConsciousDigitalTwin.sensorIntegration, ConsciousDigitalTwin.attentionFocus,
      ConsciousDigitalTwin.behavioralConsistency, ConsciousDigitalTwin.detectAnomalies,
      ConsciousDigitalTwin.makePrediction, classify, roundTo, roundHalfEven,
      eC10, pC10, ts85, ratSqrt_zero, List.lookup, List.filterMap_cons, List.filterMap_nil,
      show (("x" : String) == "x") = true from rfl,
      show (("y" : String) == "x") = false from rfl,
      show (("y" : String) == "y") = true from rfl]
  · norm_num [ConsciousDigitalTwin.sync, ConsciousDigitalTwin.indicators,
      ConsciousDigitalTwin.computeSyncAccuracy, ConsciousDigitalTwin.evaluatePredictions,
      ConsciousDigitalTwin.sensorIntegration, ConsciousDigitalTwin.attentionFocus,
      ConsciousDigitalTwin.behavioralConsistency, ConsciousDigitalTwin.detectAnomalies,
      ConsciousDigitalTwin.makePrediction, classify, roundTo, roundHalfEven,
      eC10, pC10, ts85, ratSqrt_zero, List.lookup, List.filterMap_cons, List.filterMap_nil,
      show (("x" : String) == "x") = true from rfl,
      show (("y" : String) == "x") = false from rfl,
      show (("y" : String) == "y") = true from rfl]
  · norm_num [classify]

/-- C10, witness: the divergence window instantiated at the concrete score
`0.84997`. -/
theorem claim_C10_witness :
    classify (84997/100000) = "C-3 Autonomous" ∧
    roundTo 4 ((84997:ℚ)/100000) = 85/100 ∧
    classify (roundTo 4 ((84997:ℚ)/100000)) = "C-4 Transcendent" :=
  claim_C10.2.1 (84997/100000) (by norm_num) (by norm_num)
